import Mathlib

/-!
Verification of the FunRec place-normalization service.

The repository has two near-duplicate implementations of the tool handler
`getFunRec.handler`:

* the primary one in `src/index.ts` (drops features without a name, wraps the
  provider call in try/catch, defaults a missing address), and
* an alternate variant in an unnamed file (`example/example-node.ts` header)
  that substitutes the placeholder name "unknown", applies no address default,
  and has no try/catch.

This file gives a shallow embedding of both handlers and proves the spec's
claims about them.  The provider call is modelled as an input of type
`Except ProviderError GeoapifyResponse`: the handler cannot influence what the
network returns, so the fetch outcome is universally quantified.  An async
TypeScript handler that may reject is embedded as a function into
`Except ProviderError _`; the primary handler's try/catch makes it always
return `.ok`, while the alternate variant forwards the rejection.

JavaScript semantics embedded explicitly:

* `x === undefined` tests on an optional field become `Option` matches;
* `x || d` on a `string | undefined` value falls back to `d` both when `x` is
  `undefined` and when it is the empty string (empty strings are falsy) —
  see `jsOrDefault`;
* `array.map(f).filter(p => p !== null)` with a nullable-returning `f`
  becomes `List.filterMap`;
* string interpolation of an array of objects (alternate variant's
  `${placeList}`) yields "[object Object]" per element, joined by commas.

The handler returns `{ text, data, ui }`; the `ui` field is an opaque
UI-builder object owned by an external library and carries no data beyond
what `text`/`data` already contain, so the embedding keeps `text` and the
`data.places` list.  In the empty/error branches the source returns
`data: {}` (no `places` key); reading the absent list as `[]`, as the spec
does, this is embedded as `places := []`.
-/

/-- Provider failure: axios rejects on transport errors and (by default) on
non-success HTTP status codes; both land in the primary handler's `catch`. -/
inductive ProviderError where
  | transport
  | status (code : Nat)
deriving DecidableEq, Repr

/-- `PlaceProperties` of `src/index.ts` (lines 9-13): `name` and `formatted`
are optional, `categories` is a required string array. -/
structure PlaceProperties where
  name : Option String
  categories : List String
  formatted : Option String
deriving DecidableEq, Repr

/-- `geometry` of a feature: `coordinates` is a `[longitude, latitude]` pair,
embedded as (first component, second component) = (longitude, latitude).
Coordinates are embedded as rationals: the code only copies them, never
computes with them. -/
structure Geometry where
  coordinates : Rat × Rat
deriving DecidableEq, Repr

/-- One element of `GeoapifyResponse.features`. -/
structure Feature where
  properties : PlaceProperties
  geometry : Geometry
deriving DecidableEq, Repr

/-- `GeoapifyResponse` (lines 15-23): the provider's JSON body. -/
structure GeoapifyResponse where
  features : List Feature
deriving DecidableEq, Repr

/-- The normalized place record built by the primary handler (lines 82-88). -/
structure Place where
  name : String
  category : String
  address : String
  latitude : Rat
  longitude : Rat
deriving DecidableEq, Repr

/-- The place record built by the alternate variant: `address` is copied from
the optional `formatted` field with no default, so it stays optional. -/
structure PlaceAlt where
  name : String
  category : String
  address : Option String
  latitude : Rat
  longitude : Rat
deriving DecidableEq, Repr

/-- What the primary handler returns: the `text` summary and `data.places`. -/
structure HandlerResult where
  text : String
  places : List Place
deriving DecidableEq, Repr

/-- What the alternate variant returns on success. -/
structure HandlerResultAlt where
  text : String
  places : List PlaceAlt
deriving DecidableEq, Repr

/-- The hardcoded provider API key (`src/index.ts` line 7). -/
def apiKey : String := "6ca0b6efffe246cda90e204dc02085e6"

/-- The outbound GET request of line 55-57, as data: query parameters
`lat`, `lon`, `categories=tourism,leisure`, `limit=10`, `apiKey`. -/
structure PlacesRequest where
  lat : Rat
  lon : Rat
  categories : List String
  limit : Nat
  key : String
deriving DecidableEq, Repr

/-- The request both handlers issue for a query at (latitude, longitude). -/
def placesRequest (latitude longitude : Rat) : PlacesRequest :=
  { lat := latitude
    lon := longitude
    categories := ["tourism", "leisure"]
    limit := 10
    key := apiKey }

/-- JavaScript `x || d` for `x : string | undefined`: falls back to `d` when
`x` is `undefined` or the empty string (a falsy value). -/
def jsOrDefault (x : Option String) (d : String) : String :=
  match x with
  | none => d
  | some v => if v = "" then d else v

/-- The primary handler's map callback (`src/index.ts` lines 74-89): returns
`null` (here `none`) for a feature whose `name` is `undefined`, otherwise the
normalized place. -/
def normalizePlace (place : Feature) : Option Place :=
  match place.properties.name with
  | none => none
  | some name =>
      some
        { name := name
          category := String.intercalate ", " place.properties.categories
          address := jsOrDefault place.properties.formatted "No address available"
          latitude := place.geometry.coordinates.2
          longitude := place.geometry.coordinates.1 }

/-- `places.map(...).filter(place => place !== null)` of lines 74-89. -/
def placeListOf (features : List Feature) : List Place :=
  features.filterMap normalizePlace

/-- One line of the enumerated summary (line 92): `"{i+1}. {name} - {address}"`
for the place at 0-based index `i`. -/
def placeLine (i : Nat) (p : Place) : String :=
  toString (i + 1) ++ ". " ++ p.name ++ " - " ++ p.address

/-- The summary lines of the retained place list, in order. -/
def summaryLines (placeList : List Place) : List String :=
  placeList.enum.map (fun e => placeLine e.1 e.2)

/-- `placesText` of lines 91-93: the enumerated lines joined by newline. -/
def placesTextOf (placeList : List Place) : String :=
  String.intercalate "\n" (summaryLines placeList)

/-- The primary handler (`src/index.ts` lines 49-133), with the fetch outcome
as an explicit input.  The try/catch converts any provider failure into an
ordinary result, so the function always returns `.ok`. -/
def handler (locationName : String)
    (fetch : Except ProviderError GeoapifyResponse) :
    Except ProviderError HandlerResult :=
  match fetch with
  | .error _ =>
      .ok { text := "Sorry, we couldn\x27t fetch activities for " ++
              locationName ++ ". Please try again later."
            places := [] }
  | .ok response =>
      let places := response.features
      if places.length = 0 then
        .ok { text := "No fun activities found near " ++ locationName ++ "."
              places := [] }
      else
        let placeList := placeListOf places
        .ok { text := "Here are some fun activities in " ++ locationName ++
                ":\n" ++ placesTextOf placeList
              places := placeList }

/-- The alternate variant's map callback (unnamed file, lines 71-86).  A
missing name becomes the placeholder "unknown"; the address is the raw
optional `formatted` field (no default).  The source declares a local
`longtitude` (note the typo) for `coordinates[0]` but the returned record's
`longitude:` field resolves to the handler's input parameter `longitude`,
which is therefore what this embedding uses. -/
def normalizePlaceAlt (longitude : Rat) (place : Feature) : PlaceAlt :=
  { name :=
      match place.properties.name with
      | none => "unknown"
      | some n => n
    category := String.intercalate ", " place.properties.categories
    address := place.properties.formatted
    latitude := place.geometry.coordinates.2
    longitude := longitude }

/-- The alternate variant's `placeList` (a plain map, nothing dropped). -/
def altPlaceList (longitude : Rat) (features : List Feature) : List PlaceAlt :=
  features.map (normalizePlaceAlt longitude)

/-- JavaScript stringification of an array of `n` plain objects, as produced
by the alternate variant's `${placeList}` interpolation. -/
def jsArrayToString (n : Nat) : String :=
  String.intercalate "," (List.replicate n "[object Object]")

/-- The alternate variant's handler (unnamed file, lines 57-115).  There is no
try/catch, so a rejected fetch propagates out of the handler unchanged. -/
def handlerAlt (locationName : String) (latitude longitude : Rat)
    (fetch : Except ProviderError GeoapifyResponse) :
    Except ProviderError HandlerResultAlt :=
  match fetch with
  | .error e => .error e
  | .ok response =>
      let _ := latitude
      let placeList := altPlaceList longitude response.features
      .ok { text := "Heres a list of FUN activities in " ++ locationName ++
              ":\n" ++ jsArrayToString placeList.length
            places := placeList }

/-- The unconditional place builder used to express "retained features in
provider order": on a feature whose name is present it agrees with
`normalizePlace`. -/
def mkNamedPlace (place : Feature) : Place :=
  { name := place.properties.name.getD ""
    category := String.intercalate ", " place.properties.categories
    address := jsOrDefault place.properties.formatted "No address available"
    latitude := place.geometry.coordinates.2
    longitude := place.geometry.coordinates.1 }

/-- The spec's §8 example feature: Pier Park at `coordinates [-118.2, 33.8]`
(the decimals are written via `mkRat` so that the kernel can evaluate them;
`C4_witness` checks they equal the literals `-118.2` and `33.8`). -/
def pierParkFeature : Feature :=
  { properties :=
      { name := some "Pier Park"
        categories := ["leisure.park"]
        formatted := some "1 Pier Dr" }
    geometry := { coordinates := (mkRat (-591) 5, mkRat 169 5) } }

/-- The spec's §8 example output place. -/
def pierParkPlace : Place :=
  { name := "Pier Park"
    category := "leisure.park"
    address := "1 Pier Dr"
    latitude := mkRat 169 5
    longitude := mkRat (-591) 5 }

/-- A feature whose `name` is present but equal to the empty string. -/
def emptyNameFeature : Feature :=
  { properties := { name := some "", categories := [], formatted := none }
    geometry := { coordinates := (0, 0) } }

/-- A feature whose `formatted` address is present but equal to the empty
string. -/
def emptyFormattedFeature : Feature :=
  { properties :=
      { name := some "Aquarium", categories := ["tourism"], formatted := some "" }
    geometry := { coordinates := (1, 2) } }

/-- A feature with a name but an empty category list. -/
def noCatFeature : Feature :=
  { properties := { name := some "Plaza", categories := [], formatted := none }
    geometry := { coordinates := (5, 6) } }

/-- The place the primary handler produces for `noCatFeature`. -/
def noCatPlace : Place :=
  { name := "Plaza"
    category := ""
    address := "No address available"
    latitude := 6
    longitude := 5 }

/-- A feature with no name at all. -/
def namelessFeature : Feature :=
  { properties :=
      { name := none
        categories := ["tourism.sights"]
        formatted := some "Somewhere 1" }
    geometry := { coordinates := (10, 20) } }

/-! ## Helper lemmas shared by several claims -/

/-- On a success fetch, the primary handler's place list is `placeListOf` of
the provider features (both the empty-features branch and the main branch). -/
theorem handler_ok_places (loc : String) (resp : GeoapifyResponse)
    (r : HandlerResult) (h : handler loc (.ok resp) = .ok r) :
    r.places = placeListOf resp.features := by
  simp only [handler] at h
  by_cases hfs : resp.features.length = 0
  · rw [if_pos hfs] at h
    cases h
    rw [List.length_eq_zero.mp hfs]
    rfl
  · rw [if_neg hfs] at h
    cases h
    rfl

/-- The primary normalization is the map of `mkNamedPlace` over the features
whose `name` is present, in provider order. -/
theorem placeListOf_eq_filter_map (fs : List Feature) :
    placeListOf fs =
      (fs.filter (fun f => f.properties.name.isSome)).map mkNamedPlace := by
  induction fs with
  | nil => rfl
  | cons f fs ih =>
      rcases hn : f.properties.name with _ | n
      · simpa [placeListOf, List.filterMap_cons, List.filter_cons, hn,
          normalizePlace] using ih
      · simpa [placeListOf, List.filterMap_cons, List.filter_cons, hn,
          normalizePlace, mkNamedPlace] using ih

/-! ## C1: missing-name features are dropped one-to-one -/

/-- C1, counterexample to the claim as stated.  The claim asserts every Place
in the primary handler's output has a *non-empty* name, but the source only
tests `name === undefined` (line 76): a feature whose name is present but
equal to the empty string is retained, and its output Place has name `""`. -/
theorem C1_counterexample :
    (handler "Carson" (.ok { features := [emptyNameFeature] })).map
        (fun r => r.places.map Place.name) = .ok [""] ∧
    ¬ (∀ r, handler "Carson" (.ok { features := [emptyNameFeature] }) = .ok r →
        ∀ p ∈ r.places, p.name ≠ "") := by
  refine ⟨rfl, fun h => ?_⟩
  exact h
    { text := "Here are some fun activities in Carson:\n1.  - No address available"
      places := [{ name := "", category := "", address := "No address available"
                   latitude := 0, longitude := 0 }] }
    rfl _ (List.mem_singleton.mpr rfl) rfl

/-- C1 (amended): in the primary handler, every input feature whose name is
*undefined* is dropped from the output, one-to-one: the output length equals
the number of features whose name is present, and every output Place's name
is the present name of some input feature.  (The claim's stronger reading —
output names are never the empty string — fails: a present-but-empty name is
retained, see the counterexample.) -/
theorem C1_named_features_one_to_one (loc : String) (resp : GeoapifyResponse)
    (r : HandlerResult) (h : handler loc (.ok resp) = .ok r) :
    r.places.length =
      (resp.features.filter (fun f => f.properties.name.isSome)).length ∧
    ∀ p ∈ r.places, ∃ f ∈ resp.features, f.properties.name = some p.name := by
  have hp := handler_ok_places loc resp r h
  rw [hp, placeListOf_eq_filter_map]
  constructor
  · exact (List.length_map _ _)
  · intro p hpmem
    obtain ⟨f, hf, hfp⟩ := List.mem_map.mp hpmem
    have hfmem := List.mem_of_mem_filter hf
    have hname : f.properties.name.isSome := by
      have := List.of_mem_filter hf
      simpa using this
    obtain ⟨n, hn⟩ := Option.isSome_iff_exists.mp hname
    refine ⟨f, hfmem, ?_⟩
    rw [hn, ← hfp]
    simp [mkNamedPlace, hn]

/-- C1 witness: on `[pierParkFeature, namelessFeature]` one feature is
retained and one dropped; the length identity and name-origin both hold. -/
theorem C1_witness :
    ([pierParkPlace] : List Place).length =
      ([pierParkFeature, namelessFeature].filter
        (fun f => f.properties.name.isSome)).length ∧
    ∃ f ∈ [pierParkFeature, namelessFeature],
      f.properties.name = some pierParkPlace.name := by
  have h := C1_named_features_one_to_one "Carson"
    { features := [pierParkFeature, namelessFeature] }
    { text := "Here are some fun activities in Carson:\n1. Pier Park - 1 Pier Dr"
      places := [pierParkPlace] } rfl
  exact ⟨h.1, h.2 pierParkPlace (List.mem_singleton.mpr rfl)⟩

/-! ## C2: provider failure is reported in-band -/

/-- C2: when the provider call fails (transport error or non-success status),
the primary handler returns a result with an empty place list and a summary
asking to try again later; and for *every* fetch outcome the handler returns
`.ok` — failure never escapes on the error channel. -/
theorem C2_provider_error_in_band (loc : String) (e : ProviderError)
    (fetch : Except ProviderError GeoapifyResponse) :
    handler loc (.error e) =
      .ok { text := "Sorry, we couldn\x27t fetch activities for " ++ loc ++
              ". Please try again later."
            places := [] } ∧
    ∃ r, handler loc fetch = .ok r := by
  refine ⟨rfl, ?_⟩
  cases fetch with
  | error e2 => exact ⟨_, rfl⟩
  | ok resp =>
      simp only [handler]
      by_cases hfs : resp.features.length = 0
      · rw [if_pos hfs]; exact ⟨_, rfl⟩
      · rw [if_neg hfs]; exact ⟨_, rfl⟩

/-! ## C3: empty provider result is a distinct non-error terminal state -/

/-- C3: when the provider returns `features = []` the handler returns `.ok`
with an empty place list and the summary "No fun activities found near
{location}." — which contains the location name and a no-activities
indication — and this state is distinct from the provider-failure state. -/
theorem C3_empty_results (loc : String) (e : ProviderError) :
    handler loc (.ok { features := [] }) =
      .ok { text := "No fun activities found near " ++ loc ++ "."
            places := [] } ∧
    handler loc (.ok { features := [] }) ≠ handler loc (.error e) := by
  refine ⟨rfl, fun h => ?_⟩
  have ht : "No fun activities found near " ++ loc ++ "." =
      "Sorry, we couldn\x27t fetch activities for " ++ loc ++
        ". Please try again later." := by
    have h2 : ({ text := "No fun activities found near " ++ loc ++ "."
                 places := [] } : HandlerResult) =
        { text := "Sorry, we couldn\x27t fetch activities for " ++ loc ++
            ". Please try again later."
          places := [] } := by
      exact Except.ok.inj h
    exact congrArg HandlerResult.text h2
  have hl := congrArg String.length ht
  simp only [String.length_append] at hl
  have c1 : ("No fun activities found near ").length = 29 := rfl
  have c2 : (".").length = 1 := rfl
  have c3 : ("Sorry, we couldn\x27t fetch activities for ").length = 40 := rfl
  have c4 : (". Please try again later.").length = 25 := rfl
  omega

/-! ## C4: coordinate axis mapping -/

/-- C4: for every retained feature the output latitude is `coordinates[1]`
(the second component) and the output longitude is `coordinates[0]` (the
first component); and the spec's example feature — Pier Park at
`coordinates [-118.2, 33.8]` — normalizes to exactly the example place with
latitude `33.8` and longitude `-118.2`. -/
theorem C4_coordinate_mapping :
    (∀ f p, normalizePlace f = some p →
        p.latitude = f.geometry.coordinates.2 ∧
        p.longitude = f.geometry.coordinates.1) ∧
    placeListOf [pierParkFeature] = [pierParkPlace] ∧
    pierParkFeature.geometry.coordinates = (-118.2, 33.8) ∧
    pierParkPlace.name = "Pier Park" ∧
    pierParkPlace.category = "leisure.park" ∧
    pierParkPlace.address = "1 Pier Dr" ∧
    pierParkPlace.latitude = 33.8 ∧
    pierParkPlace.longitude = -118.2 := by
  refine ⟨?_, rfl, ?_, rfl, rfl, rfl, ?_, ?_⟩
  · intro f p h
    rcases hn : f.properties.name with _ | n
    · simp [normalizePlace, hn] at h
    · simp only [normalizePlace, hn, Option.some.injEq] at h
      rw [← h]
      exact ⟨rfl, rfl⟩
  · show (mkRat (-591) 5, mkRat 169 5) = (-118.2, 33.8)
    rw [Rat.mkRat_eq_div, Rat.mkRat_eq_div]
    norm_num
  · show mkRat 169 5 = 33.8
    rw [Rat.mkRat_eq_div]; norm_num
  · show mkRat (-591) 5 = -118.2
    rw [Rat.mkRat_eq_div]; norm_num

/-- C4 witness: the universal axis-mapping part applied to the concrete Pier
Park feature/place pair. -/
theorem C4_witness :
    pierParkPlace.latitude = pierParkFeature.geometry.coordinates.2 ∧
    pierParkPlace.longitude = pierParkFeature.geometry.coordinates.1 :=
  C4_coordinate_mapping.1 pierParkFeature pierParkPlace rfl

/-! ## C5: address defaulting -/

/-- C5, counterexample to the claim as stated.  The claim says the output
address equals the provider's formatted address whenever that field is
present; but the source uses `formatted || "No address available"` (line 80)
and JavaScript `||` also falls back on the empty string, so a feature with
`formatted = ""` (present) gets the default, not `""`. -/
theorem C5_counterexample :
    ¬ (∀ f p s, normalizePlace f = some p → f.properties.formatted = some s →
        p.address = s) := by
  intro h
  have := h emptyFormattedFeature
    { name := "Aquarium", category := "tourism", address := "No address available"
      latitude := 2, longitude := 1 } "" rfl rfl
  exact absurd this (by decide)

/-- C5 (amended): the output address is never empty; it equals the provider's
formatted address when that is present *and non-empty*; when the formatted
field is absent or the empty string, it is the literal default
"No address available". -/
theorem C5_address_defaulting (f : Feature) (p : Place) (s : String)
    (h : normalizePlace f = some p) :
    p.address ≠ "" ∧
    (f.properties.formatted = some s → s ≠ "" → p.address = s) ∧
    ((f.properties.formatted = none ∨ f.properties.formatted = some "") →
      p.address = "No address available") := by
  rcases hn : f.properties.name with _ | n
  · simp [normalizePlace, hn] at h
  · simp only [normalizePlace, hn, Option.some.injEq] at h
    subst h
    simp only [jsOrDefault]
    rcases hf : f.properties.formatted with _ | v
    · exact ⟨by decide, ⟨fun hs _ => Option.noConfusion hs, fun _ => rfl⟩⟩
    · by_cases hv : v = ""
      · subst hv
        refine ⟨by decide, fun hs hne => ?_, fun _ => by decide⟩
        rw [Option.some.injEq] at hs
        exact absurd hs.symm hne
      · refine ⟨by simp [hv], fun hs _ => ?_, fun habs => ?_⟩
        · rw [Option.some.injEq] at hs
          rw [← hs]
          simp [hv]
        · rcases habs with habs | habs
          · exact Option.noConfusion habs
          · rw [Option.some.injEq] at habs
            exact absurd habs hv

/-- C5 witness: the Pier Park feature has the formatted address "1 Pier Dr",
and its output place carries exactly that non-empty address. -/
theorem C5_witness :
    pierParkPlace.address = "1 Pier Dr" ∧ pierParkPlace.address ≠ "" := by
  have h := C5_address_defaulting pierParkFeature pierParkPlace "1 Pier Dr" rfl
  exact ⟨h.2.1 rfl (by decide), h.1⟩

/-! ## C6: the enumerated summary -/

/-- C6: for a non-empty feature list the summary text is the fixed header
containing the location name, a newline, and the enumerated lines joined by
newline; the number of lines equals the number of retained places, and the
line at 0-based index `i` is `"{i+1}. {name} - {address}"` for the place at
index `i`. -/
theorem C6_summary_enumeration (loc : String) (fs : List Feature) (i : Nat)
    (h : fs ≠ []) :
    handler loc (.ok { features := fs }) =
      .ok { text := "Here are some fun activities in " ++ loc ++ ":\n" ++
              String.intercalate "\n" (summaryLines (placeListOf fs))
            places := placeListOf fs } ∧
    (summaryLines (placeListOf fs)).length = (placeListOf fs).length ∧
    (summaryLines (placeListOf fs)).get? i =
      ((placeListOf fs).get? i).map
        (fun p => toString (i + 1) ++ ". " ++ p.name ++ " - " ++ p.address) := by
  refine ⟨?_, ?_, ?_⟩
  · simp only [handler]
    rw [if_neg (by simpa [List.length_eq_zero] using h)]
    rfl
  · simp [summaryLines, List.enum_length]
  · simp only [summaryLines, List.get?_map, List.get?_enum, Option.map_map]
    rfl

/-- C6 witness: two retained places; the second line is
"2. Aquarium - No address available". -/
theorem C6_witness :
    handler "L" (.ok { features := [pierParkFeature, emptyFormattedFeature] }) =
      .ok { text := "Here are some fun activities in L:\n" ++
              String.intercalate "\n"
                (summaryLines (placeListOf [pierParkFeature, emptyFormattedFeature]))
            places := placeListOf [pierParkFeature, emptyFormattedFeature] } ∧
    (summaryLines (placeListOf [pierParkFeature, emptyFormattedFeature])).length = 2 ∧
    (summaryLines (placeListOf [pierParkFeature, emptyFormattedFeature])).get? 1 =
      some "2. Aquarium - No address available" := by
  have h := C6_summary_enumeration "L" [pierParkFeature, emptyFormattedFeature] 1
    (by decide)
  exact ⟨h.1, h.2.1.trans (by decide), h.2.2.trans (by decide)⟩

/-! ## C7: provider order preserved, at most 10 places -/

/-- C7: the output place list is the provider-ordered list of retained
features (normalization never reorders), and — since the outbound request
carries `limit=10`, so the provider returns at most 10 features — the output
has at most 10 places. -/
theorem C7_order_and_limit (loc : String) (lat lon : Rat) (fs : List Feature)
    (r : HandlerResult) (hr : handler loc (.ok { features := fs }) = .ok r)
    (hlim : fs.length ≤ (placesRequest lat lon).limit) :
    r.places = (fs.filter (fun f => f.properties.name.isSome)).map mkNamedPlace ∧
    (placesRequest lat lon).limit = 10 ∧
    r.places.length ≤ 10 := by
  have hp := handler_ok_places loc { features := fs } r hr
  have ho : r.places =
      (fs.filter (fun f => f.properties.name.isSome)).map mkNamedPlace := by
    rw [hp]; exact placeListOf_eq_filter_map fs
  refine ⟨ho, rfl, ?_⟩
  rw [ho, List.length_map]
  exact le_trans (List.length_filter_le _ _) hlim

/-- C7 witness: a two-feature response (one nameless) yields the single
retained place, in order, and the bound holds. -/
theorem C7_witness :
    ([pierParkPlace] : List Place) =
      ([pierParkFeature, namelessFeature].filter
        (fun f => f.properties.name.isSome)).map mkNamedPlace ∧
    (placesRequest 0 0).limit = 10 ∧
    ([pierParkPlace] : List Place).length ≤ 10 :=
  C7_order_and_limit "L" 0 0 [pierParkFeature, namelessFeature]
    { text := "Here are some fun activities in L:\n1. Pier Park - 1 Pier Dr"
      places := [pierParkPlace] } rfl (by decide)

/-! ## C8: the two variants disagree on the missing-name policy -/

/-- C8: on a feature with an undefined name, the primary handler's
normalization drops it while the alternate variant keeps it under the
placeholder name "unknown"; hence the two normalizations differ as functions
of the feature list. -/
theorem C8_policy_divergence :
    placeListOf [namelessFeature] = [] ∧
    (altPlaceList 0 [namelessFeature]).map PlaceAlt.name = ["unknown"] ∧
    (fun fs => (placeListOf fs).map Place.name) ≠
      (fun fs => (altPlaceList 0 fs).map PlaceAlt.name) := by
  refine ⟨rfl, rfl, fun h => ?_⟩
  have h1 := congrFun h [namelessFeature]
  exact absurd h1 (by decide)

/-! ## C9: category is the comma-joined category list, possibly empty -/

/-- C9: for every retained feature the output category is the feature's
category list joined with ", ", and an empty category list yields the empty
string — there is no non-empty guarantee for `category`. -/
theorem C9_category_join (f : Feature) (p : Place)
    (h : normalizePlace f = some p) :
    p.category = String.intercalate ", " f.properties.categories ∧
    (f.properties.categories = [] → p.category = "") := by
  rcases hn : f.properties.name with _ | n
  · simp [normalizePlace, hn] at h
  · simp only [normalizePlace, hn, Option.some.injEq] at h
    subst h
    exact ⟨rfl, fun hc => by rw [hc]; rfl⟩

/-- C9 witness: a feature with an empty category list yields a place whose
category is the empty string. -/
theorem C9_witness :
    noCatPlace.category =
      String.intercalate ", " noCatFeature.properties.categories ∧
    noCatPlace.category = "" := by
  have h := C9_category_join noCatFeature noCatPlace rfl
  exact ⟨h.1, h.2 rfl⟩

/-! ## C10: the alternate variant has no error branch and no address default -/

/-- C10: the alternate variant's handler forwards a provider failure on the
error channel unchanged (there is no try/catch), and on success every output
address is the raw optional `formatted` field — no default is applied. -/
theorem C10_alt_error_propagation (loc : String) (qlat qlon : Rat)
    (e : ProviderError) (f : Feature) (resp : GeoapifyResponse) :
    handlerAlt loc qlat qlon (.error e) = .error e ∧
    (normalizePlaceAlt qlon f).address = f.properties.formatted ∧
    ∃ r, handlerAlt loc qlat qlon (.ok resp) = .ok r ∧
      r.places.map PlaceAlt.address =
        resp.features.map (fun g => g.properties.formatted) := by
  refine ⟨rfl, rfl, ⟨_, rfl, ?_⟩⟩
  simp [altPlaceList, List.map_map, Function.comp, normalizePlaceAlt]

/-- C2 witness: the error case evaluated at the query "Carson" and a
transport failure. -/
theorem C2_witness :
    handler "Carson" (.error .transport) =
      .ok { text := "Sorry, we couldn\x27t fetch activities for Carson. Please try again later."
            places := [] } ∧
    ∃ r, handler "Carson" (.ok { features := [pierParkFeature] }) = .ok r :=
  C2_provider_error_in_band "Carson" .transport (.ok { features := [pierParkFeature] })

/-- C3 witness: the empty-features case evaluated at the query "Cerritos". -/
theorem C3_witness :
    handler "Cerritos" (.ok { features := [] }) =
      .ok { text := "No fun activities found near Cerritos.", places := [] } ∧
    handler "Cerritos" (.ok { features := [] }) ≠
      handler "Cerritos" (.error (.status 500)) :=
  C3_empty_results "Cerritos" (.status 500)

/-- C10 witness: the alternate handler evaluated at a concrete query and a
concrete transport failure, and the no-default address on a concrete
feature. -/
theorem C10_witness :
    handlerAlt "LongBeach" 1 2 (.error .transport) = .error .transport ∧
    (normalizePlaceAlt 2 namelessFeature).address = some "Somewhere 1" ∧
    ∃ r, handlerAlt "LongBeach" 1 2 (.ok { features := [namelessFeature] }) = .ok r ∧
      r.places.map PlaceAlt.address =
        [namelessFeature].map (fun g => g.properties.formatted) :=
  C10_alt_error_propagation "LongBeach" 1 2 .transport namelessFeature
    { features := [namelessFeature] }
